import Mathlib

/-!
Shallow embedding of the authentication/authorization core of the web
application in `src/index.js`: the signup/login/logout handlers, the
`adminOnly` route gate, the promote/demote routes, and the `users`
collection they act on.  External collaborators (the HTTP framework, the
document database client, the bcrypt hasher, Joi validation) are modelled
by their observable behaviour at the call sites in the source.
-/

set_option maxHeartbeats 1000000

namespace Auth

/-- An account document of the `users` collection, created by `POST /signup`
(src/index.js lines 92-97) with fields `name`, `email`, `password` (the
stored hash) and `user_type`. -/
structure Account where
  name : String
  email : String
  password : String
  user_type : String
deriving Repr, DecidableEq

/-- The `users` collection, kept in insertion order: `findOne` returns the
first match, `insertOne` appends, `updateOne` updates the first match. -/
abbrev UserCollection := List Account

/-- The request session (`req.session`) fields written by the handlers.
Fields never written are modelled as `false` / `""`. -/
structure Session where
  authenticated : Bool
  name : String
  email : String
  user_type : String
deriving Repr, DecidableEq

/-- A fresh session on which no handler has written any field yet. -/
def freshSession : Session := ⟨false, "", "", ""⟩

/-- The password hasher (the external `bcrypt` library at its two call
sites): a one-way hash and a verify primitive. -/
structure Hasher where
  hash : String → String
  compare : String → String → Bool

/-- A hasher is sound when `compare` accepts exactly the password that was
hashed: any password differing from the original is rejected. -/
def Hasher.Sound (h : Hasher) : Prop :=
  ∀ p s : String, h.compare p (h.hash s) = true ↔ p = s

/-- A concrete sound hasher used to instantiate the theorems. -/
def idHasher : Hasher := ⟨fun s => s, fun p stored => p == stored⟩

/-- The responses the embedded handlers can produce. -/
inductive Response where
  | redirect (url : String)
  | signupForm (emailTaken : Bool)
  | signupValidationError
  | membersPage (name : String)
  | unauthorized403
  | logoutPage
  | logoutError500
  | loginForm
  | loginValidationError
  | loginErrorPage (message : String)
  | adminPage (users : List Account)
  | indexPage (name user_type : Option String)
  | notFound404
deriving Repr, DecidableEq

/-- Split a character list at every occurrence of `c` (helper for the email
syntax check). -/
def splitOnChar (c : Char) : List Char → List (List Char)
  | [] => [[]]
  | x :: xs =>
    match splitOnChar c xs with
    | [] => if x = c then [[], []] else [[x]]
    | r :: rs => if x = c then [] :: r :: rs else (x :: r) :: rs

/-- Modelled from the spec: "email (syntactically valid email)".  The source
delegates email syntax to the external validator (`Joi.string().email()`);
simplified here to: exactly one `@`, a non-empty local part, and a domain of
at least two non-empty dot-separated labels. -/
def emailValid (s : String) : Bool :=
  match splitOnChar '@' s.toList with
  | [loc, domain] =>
    (loc != ([] : List Char)) &&
      (let labels := splitOnChar '.' domain
       decide (2 ≤ labels.length) && labels.all (fun l => l != ([] : List Char)))
  | _ => false

/-- The Joi schema of `POST /signup` (src/index.js lines 70-74): `name` a
non-empty string of at most 30 characters, `email` a syntactically valid
email, `password` at least 6 characters, all required. -/
def signupValid (name email password : String) : Bool :=
  (name != "") && decide (name.length ≤ 30) && emailValid email &&
    decide (6 ≤ password.length)

/-- The Joi schema of `POST /login` (src/index.js lines 175-178): a valid
email and a non-empty password. -/
def loginValid (email password : String) : Bool :=
  emailValid email && (password != "")

/-- `userCollection.findOne({ email })`: the first account with the given
email, if any. -/
def findOne (db : UserCollection) (email : String) : Option Account :=
  db.find? (fun a => a.email == email)

/-- `POST /signup` (src/index.js lines 66-107): validate, hash the password,
reject a taken email with the email-taken form, otherwise insert the account
with `user_type = "user"`, authenticate the session with the new account's
data and redirect to `/members`. -/
def signupPost (h : Hasher) (db : UserCollection) (sess : Session)
    (name email password : String) : Response × UserCollection × Session :=
  if signupValid name email password then
    let hashedPassword := h.hash password
    match findOne db email with
    | some _ => (.signupForm true, db, sess)
    | none =>
      (.redirect "/members",
       db ++ [⟨name, email, hashedPassword, "user"⟩],
       ⟨true, name, email, "user"⟩)
  else
    (.signupValidationError, db, sess)

/-- `POST /login` (src/index.js lines 171-216): validate, look the account up
by email, compare the password against the stored hash, and on success
authenticate the session with the account's current data and redirect to
`/`. -/
def loginPost (h : Hasher) (db : UserCollection) (sess : Session)
    (email password : String) : Response × Session :=
  if loginValid email password then
    match findOne db email with
    | none => (.loginErrorPage "No account found with that email.", sess)
    | some user =>
      if h.compare password user.password then
        (.redirect "/", ⟨true, user.name, user.email, user.user_type⟩)
      else
        (.loginErrorPage "Incorrect password.", sess)
  else
    (.loginValidationError, sess)

/-- Outcome of the `adminOnly` middleware. -/
inductive GateResult where
  | allow
  | redirectLogin
  | forbidden
deriving Repr, DecidableEq

/-- The `adminOnly` middleware (src/index.js lines 31-42): redirect
unauthenticated sessions to `/login`, answer authenticated non-admin
sessions with the 403 unauthorized render, let admins through. -/
def adminOnly (sess : Session) : GateResult :=
  if !sess.authenticated then .redirectLogin
  else if sess.user_type != "admin" then .forbidden
  else .allow

/-- `GET /admin` (src/index.js lines 146-149): gate with `adminOnly`, then
list every account of the collection. -/
def adminGet (db : UserCollection) (sess : Session) : Response :=
  match adminOnly sess with
  | .redirectLogin => .redirect "/login"
  | .forbidden => .unauthorized403
  | .allow => .adminPage db

/-- `userCollection.updateOne({ email }, { $set: { user_type: role } })`:
set the role of the first matching account unconditionally; a no-op when no
account matches. -/
def updateOneSetRole (db : UserCollection) (email role : String) :
    UserCollection :=
  match db with
  | [] => []
  | a :: rest =>
    if a.email == email then { a with user_type := role } :: rest
    else a :: updateOneSetRole rest email role

/-- `GET /promote/:email` (src/index.js lines 152-159): gate with
`adminOnly`; if the acting session's email is the target, update the cached
session role in place; set the target account's role to admin; redirect to
`/admin`. -/
def promoteGet (db : UserCollection) (sess : Session) (email : String) :
    Response × UserCollection × Session :=
  match adminOnly sess with
  | .redirectLogin => (.redirect "/login", db, sess)
  | .forbidden => (.unauthorized403, db, sess)
  | .allow =>
    (.redirect "/admin", updateOneSetRole db email "admin",
     if sess.email == email then { sess with user_type := "admin" } else sess)

/-- `GET /demote/:email` (src/index.js lines 161-168): as `promoteGet` but
setting the role to user. -/
def demoteGet (db : UserCollection) (sess : Session) (email : String) :
    Response × UserCollection × Session :=
  match adminOnly sess with
  | .redirectLogin => (.redirect "/login", db, sess)
  | .forbidden => (.unauthorized403, db, sess)
  | .allow =>
    (.redirect "/admin", updateOneSetRole db email "user",
     if sess.email == email then { sess with user_type := "user" } else sess)

/-- `GET /members` (src/index.js lines 109-122): redirect unauthenticated
sessions to `/`; otherwise render the members page with the session name
(falling back to Guest). -/
def membersGet (sess : Session) : Response :=
  if !sess.authenticated then .redirect "/"
  else .membersPage (if sess.name == "" then "Guest" else sess.name)

/-- `GET /login` (src/index.js lines 141-143): render the login form. -/
def loginGet : Response := .loginForm

/-- `GET /` (src/index.js lines 236-240): render the landing page keyed on
the session fields. -/
def rootGet (sess : Session) : Response :=
  .indexPage (if sess.name == "" then none else some sess.name)
    (if sess.user_type == "" then none else some sess.user_type)

/-- The session store state: the set of live session ids. -/
abbrev SessionStore := List String

/-- The session store's destroy operation: remove the session id if present;
it succeeds either way. -/
def destroySession (store : SessionStore) (sid : String) : SessionStore :=
  store.filter (fun s => s != sid)

/-- `GET /logout` (src/index.js lines 126-138): destroy the session; when
the store reports an error during destroy the request fails with the 500
response, otherwise the logout confirmation renders. -/
def logoutGet (store : SessionStore) (sid : String) (storeErr : Bool) :
    Response × SessionStore :=
  if storeErr then (.logoutError500, store)
  else (.logoutPage, destroySession store sid)

/-- Concrete account fixture: Alice, signed up with password secret1. -/
def aliceAcct : Account := ⟨"Alice", "a@x.com", idHasher.hash "secret1", "user"⟩

/-- Concrete store fixture: an externally seeded admin account whose email
field is not a syntactically valid email. -/
def seedDb : UserCollection := [⟨"Root", "admin", "secret", "admin"⟩]

/-- Concrete acting-admin session fixture. -/
def bossSession : Session := ⟨true, "Boss", "b@x.com", "admin"⟩

/-- Concrete store fixture: one admin account with a well-formed email. -/
def c7Db : UserCollection := [⟨"Root", "r@x.com", "hash1", "admin"⟩]

/-- Concrete store fixture: one ordinary user account. -/
def carolDb : UserCollection := [⟨"Carol", "c@x.com", "hash2", "user"⟩]

/-- `idHasher` is a sound hasher. -/
theorem idHasher_sound : idHasher.Sound := by
  intro p s
  simp [idHasher, Hasher.Sound]

/-- `findOne` on a cons: take the head when its email matches. -/
theorem findOne_cons (a : Account) (rest : UserCollection) (email : String) :
    findOne (a :: rest) email
      = if a.email == email then some a else findOne rest email := by
  by_cases h : a.email == email <;> simp [findOne, List.find?, h]

/-- Two successive role updates for the same email collapse to the second. -/
theorem updateOne_twice (db : UserCollection) (email r1 r2 : String) :
    updateOneSetRole (updateOneSetRole db email r1) email r2
      = updateOneSetRole db email r2 := by
  induction db with
  | nil => rfl
  | cons a rest ih =>
    by_cases h : a.email == email
    · simp [updateOneSetRole, h]
    · simp [updateOneSetRole, h, ih]

/-- A role update is a no-op when the first matching account already has the
role being written. -/
theorem updateOne_of_find (db : UserCollection) (email r : String)
    (a : Account) (hfind : findOne db email = some a)
    (hrole : a.user_type = r) : updateOneSetRole db email r = db := by
  induction db with
  | nil => simp [findOne] at hfind
  | cons x rest ih =>
    rw [findOne_cons] at hfind
    by_cases h : x.email == email
    · rw [if_pos h] at hfind
      cases hfind
      have hx : ({ a with user_type := r } : Account) = a := by
        cases a
        simp_all
      simp [updateOneSetRole, h, hx]
    · rw [if_neg h] at hfind
      simp [updateOneSetRole, h, ih hfind]

/-- A role update is a no-op when no account matches the email. -/
theorem updateOne_of_none (db : UserCollection) (email r : String)
    (hfind : findOne db email = none) : updateOneSetRole db email r = db := by
  induction db with
  | nil => rfl
  | cons x rest ih =>
    rw [findOne_cons] at hfind
    by_cases h : x.email == email
    · rw [if_pos h] at hfind
      exact absurd hfind (by simp)
    · rw [if_neg h] at hfind
      simp [updateOneSetRole, h, ih hfind]

/-- After a role update, `findOne` returns the matched account with exactly
the written role, whatever its previous role was. -/
theorem findOne_updateOne (db : UserCollection) (email r : String)
    (a : Account) (hfind : findOne db email = some a) :
    findOne (updateOneSetRole db email r) email
      = some ⟨a.name, a.email, a.password, r⟩ := by
  induction db with
  | nil => simp [findOne] at hfind
  | cons x rest ih =>
    rw [findOne_cons] at hfind
    by_cases h : x.email == email
    · rw [if_pos h] at hfind
      cases hfind
      simp [updateOneSetRole, h, findOne_cons]
    · rw [if_neg h] at hfind
      simp [updateOneSetRole, h, findOne_cons, ih hfind]

/-- On an authenticated admin session the promote route passes the gate and
performs its writes. -/
theorem promoteGet_allow (db : UserCollection) (sess : Session)
    (email : String) (ha : sess.authenticated = true)
    (hr : sess.user_type = "admin") :
    promoteGet db sess email
      = (.redirect "/admin", updateOneSetRole db email "admin",
         if sess.email == email then { sess with user_type := "admin" }
         else sess) := by
  simp [promoteGet, adminOnly, ha, hr]

/-- On an authenticated admin session the demote route passes the gate and
performs its writes. -/
theorem demoteGet_allow (db : UserCollection) (sess : Session)
    (email : String) (ha : sess.authenticated = true)
    (hr : sess.user_type = "admin") :
    demoteGet db sess email
      = (.redirect "/admin", updateOneSetRole db email "user",
         if sess.email == email then { sess with user_type := "user" }
         else sess) := by
  simp [demoteGet, adminOnly, ha, hr]

/-- Claim C4: a principal (an authenticated session) whose role is not admin
invoking promote or demote on any target email is answered with the 403
unauthorized render, and neither the user collection nor the session is
written. -/
theorem nonadmin_promote_demote_forbidden (db : UserCollection)
    (sess : Session) (email : String) (ha : sess.authenticated = true)
    (hr : sess.user_type ≠ "admin") :
    (promoteGet db sess email).1 = Response.unauthorized403 ∧
    (promoteGet db sess email).2.1 = db ∧
    (promoteGet db sess email).2.2 = sess ∧
    (demoteGet db sess email).1 = Response.unauthorized403 ∧
    (demoteGet db sess email).2.1 = db ∧
    (demoteGet db sess email).2.2 = sess := by
  have hgate : adminOnly sess = .forbidden := by
    simp [adminOnly, ha, hr]
  simp [promoteGet, demoteGet, hgate]

/-- Claim C4 witness: an authenticated ordinary user hitting promote and
demote on the seeded store. -/
theorem nonadmin_promote_demote_forbidden_witness :
    (promoteGet seedDb ⟨true, "Alice", "a@x.com", "user"⟩ "admin").1
        = Response.unauthorized403 ∧
    (promoteGet seedDb ⟨true, "Alice", "a@x.com", "user"⟩ "admin").2.1
        = seedDb ∧
    (promoteGet seedDb ⟨true, "Alice", "a@x.com", "user"⟩ "admin").2.2
        = ⟨true, "Alice", "a@x.com", "user"⟩ ∧
    (demoteGet seedDb ⟨true, "Alice", "a@x.com", "user"⟩ "admin").1
        = Response.unauthorized403 ∧
    (demoteGet seedDb ⟨true, "Alice", "a@x.com", "user"⟩ "admin").2.1
        = seedDb ∧
    (demoteGet seedDb ⟨true, "Alice", "a@x.com", "user"⟩ "admin").2.2
        = ⟨true, "Alice", "a@x.com", "user"⟩ :=
  nonadmin_promote_demote_forbidden seedDb ⟨true, "Alice", "a@x.com", "user"⟩
    "admin" rfl (by decide)

/-- Claim C5: `GET /admin` redirects anonymous sessions to the login page,
renders the 403 unauthorized page (not a redirect) for authenticated
non-admin sessions, lists all accounts for admins; and a freshly signed-up
user requesting `/admin` receives the 403 render. -/
theorem admin_gate_cases (db : UserCollection) (sess : Session) :
    (sess.authenticated = false → adminGet db sess = Response.redirect "/login") ∧
    (sess.authenticated = true → sess.user_type ≠ "admin" →
      adminGet db sess = Response.unauthorized403) ∧
    (sess.authenticated = true → sess.user_type = "admin" →
      adminGet db sess = Response.adminPage db) ∧
    (∀ (h : Hasher) (name email password : String),
      signupValid name email password = true → findOne db email = none →
      adminGet (signupPost h db sess name email password).2.1
          (signupPost h db sess name email password).2.2
        = Response.unauthorized403) := by
  refine ⟨fun ha => ?_, fun ha hr => ?_, fun ha hr => ?_,
    fun h name email password hv hfresh => ?_⟩
  · simp [adminGet, adminOnly, ha]
  · simp [adminGet, adminOnly, ha, hr]
  · simp [adminGet, adminOnly, ha, hr]
  · simp [signupPost, hv, hfresh, adminGet, adminOnly]

/-- Claim C5 witness: Alice signs up on an empty store and is then answered
with the 403 unauthorized render at `/admin`. -/
theorem admin_gate_cases_witness :
    signupValid "Alice" "a@x.com" "secret1" = true ∧
    findOne [] "a@x.com" = none ∧
    adminGet (signupPost idHasher [] freshSession "Alice" "a@x.com" "secret1").2.1
        (signupPost idHasher [] freshSession "Alice" "a@x.com" "secret1").2.2
      = Response.unauthorized403 :=
  ⟨by decide, rfl,
   (admin_gate_cases [] freshSession).2.2.2 idHasher "Alice" "a@x.com" "secret1"
     (by decide) rfl⟩

/-- Claim C6: an acting admin demoting their own email succeeds, the acting
session's cached role is set to user in place, and the next admin-gated
request on that same session is answered with the 403 unauthorized render,
with no re-login. -/
theorem admin_self_demote_loses_access (db : UserCollection) (sess : Session)
    (ha : sess.authenticated = true) (hr : sess.user_type = "admin") :
    (demoteGet db sess sess.email).1 = Response.redirect "/admin" ∧
    (demoteGet db sess sess.email).2.1
        = updateOneSetRole db sess.email "user" ∧
    (demoteGet db sess sess.email).2.2 = { sess with user_type := "user" } ∧
    (∀ db2 : UserCollection,
      adminGet db2 (demoteGet db sess sess.email).2.2
        = Response.unauthorized403) := by
  have hd := demoteGet_allow db sess sess.email ha hr
  rw [hd]
  simp [adminGet, adminOnly, ha]

/-- Claim C6 witness: the Boss admin session demotes its own email and the
next `/admin` request gets the 403 render. -/
theorem admin_self_demote_loses_access_witness :
    (demoteGet seedDb bossSession "b@x.com").1 = Response.redirect "/admin" ∧
    (demoteGet seedDb bossSession "b@x.com").2.2
        = { bossSession with user_type := "user" } ∧
    adminGet seedDb (demoteGet seedDb bossSession "b@x.com").2.2
        = Response.unauthorized403 := by
  have h := admin_self_demote_loses_access seedDb bossSession rfl rfl
  exact ⟨h.1, h.2.2.1, h.2.2.2 seedDb⟩

/-- Claim C8 counterexample: an anonymous `GET /members` is answered with a
redirect to the landing page `/`, which is not the login page: the login
page is the distinct `/login` route, and `/` renders the index view. -/
theorem members_redirect_counterexample :
    membersGet freshSession = Response.redirect "/" ∧
    Response.redirect "/" ≠ Response.redirect "/login" ∧
    loginGet = Response.loginForm ∧
    rootGet freshSession ≠ Response.loginForm := by
  decide

/-- Claim C8 (amended): every `GET /members` request without an
authenticated session is answered with a redirect to the home page `/`
(not to the login page). -/
theorem members_requires_auth (sess : Session)
    (h : sess.authenticated = false) :
    membersGet sess = Response.redirect "/" := by
  simp [membersGet, h]

/-- Claim C8 witness: the fresh anonymous session is redirected from
`/members` to `/`. -/
theorem members_requires_auth_witness :
    membersGet ⟨false, "Eve", "e@x.com", "user"⟩ = Response.redirect "/" :=
  members_requires_auth ⟨false, "Eve", "e@x.com", "user"⟩ rfl

/-- Claim C9: logout renders the logout confirmation and removes the session
id even when that id was not in the session store (idempotent), and it is
answered with the 500 error response — never the success render — exactly
when the store's destroy operation reports an error. -/
theorem logout_spec (store : SessionStore) (sid : String) (storeErr : Bool) :
    ((logoutGet store sid storeErr).1 = Response.logoutError500 ↔
      storeErr = true) ∧
    (storeErr = true →
      (logoutGet store sid storeErr).1 ≠ Response.logoutPage) ∧
    (storeErr = false →
      (logoutGet store sid storeErr).1 = Response.logoutPage ∧
      sid ∉ (logoutGet store sid storeErr).2) := by
  cases storeErr <;> simp [logoutGet, destroySession, List.mem_filter]

/-- Claim C9 witness: destroying a session id absent from the store still
renders the logout confirmation. -/
theorem logout_spec_witness :
    (logoutGet ["otherSid"] "sid1" false).1 = Response.logoutPage ∧
    "sid1" ∉ (logoutGet ["otherSid"] "sid1" false).2 :=
  (logout_spec ["otherSid"] "sid1" false).2.2 rfl

/-- Claim C10: the promote and demote store writes set the matched account's
role to admin (resp. user) unconditionally, regardless of its previous role,
and each write is idempotent on the collection: applying it twice equals
applying it once. -/
theorem promote_demote_store_idempotent (db : UserCollection)
    (email : String) :
    updateOneSetRole (updateOneSetRole db email "admin") email "admin"
        = updateOneSetRole db email "admin" ∧
    updateOneSetRole (updateOneSetRole db email "user") email "user"
        = updateOneSetRole db email "user" ∧
    (∀ a : Account, findOne db email = some a →
      findOne (updateOneSetRole db email "admin") email
          = some ⟨a.name, a.email, a.password, "admin"⟩ ∧
      findOne (updateOneSetRole db email "user") email
          = some ⟨a.name, a.email, a.password, "user"⟩) :=
  ⟨updateOne_twice db email "admin" "admin",
   updateOne_twice db email "user" "user",
   fun a ha =>
     ⟨findOne_updateOne db email "admin" a ha,
      findOne_updateOne db email "user" a ha⟩⟩

/-- Claim C10 witness: demoting the seeded admin account twice equals
demoting it once, and the write lands regardless of the previous role. -/
theorem promote_demote_store_idempotent_witness :
    updateOneSetRole (updateOneSetRole seedDb "admin" "user") "admin" "user"
        = updateOneSetRole seedDb "admin" "user" ∧
    findOne (updateOneSetRole seedDb "admin" "user") "admin"
        = some ⟨"Root", "admin", "secret", "user"⟩ := by
  have h := promote_demote_store_idempotent seedDb "admin"
  exact ⟨h.2.1, (h.2.2 ⟨"Root", "admin", "secret", "admin"⟩ (by decide)).2⟩

/-- Claim C1 counterexample: the store holds a seeded account whose email
field `admin` is not syntactically valid; the password `secret` verifies
against that account's stored hash, yet login is rejected by input
validation before the store is consulted, so login success is not
equivalent to account-exists-and-password-verifies over all inputs. -/
theorem login_iff_counterexample :
    findOne seedDb "admin" = some ⟨"Root", "admin", "secret", "admin"⟩ ∧
    idHasher.compare "secret" "secret" = true ∧
    (loginPost idHasher seedDb freshSession "admin" "secret").1
        = Response.loginValidationError ∧
    (loginPost idHasher seedDb freshSession "admin" "secret").2
        = freshSession := by
  decide

/-- Claim C1 (amended): for every input passing login validation (a
syntactically valid email and a non-empty password) and a sound hasher,
login succeeds — the redirect to `/` — iff the store holds an account for
the email whose stored hash verifies the password; on success the session
is authenticated and carries the account's current name, email and role;
and any password other than the account's original one is rejected.
Inputs failing validation are rejected outright, even when a matching
account exists. -/
theorem login_spec (h : Hasher) (db : UserCollection) (sess : Session)
    (email password : String) (hsound : h.Sound)
    (hval : loginValid email password = true) :
    ((loginPost h db sess email password).1 = Response.redirect "/" ↔
      ∃ a : Account, findOne db email = some a ∧
        h.compare password a.password = true) ∧
    (∀ a : Account, findOne db email = some a →
      h.compare password a.password = true →
      (loginPost h db sess email password).2
        = ⟨true, a.name, a.email, a.user_type⟩) ∧
    (∀ (a : Account) (orig : String), findOne db email = some a →
      a.password = h.hash orig → password ≠ orig →
      (loginPost h db sess email password).1 ≠ Response.redirect "/") := by
  refine ⟨?_, ?_, ?_⟩
  · cases hfind : findOne db email with
    | none => simp [loginPost, hval, hfind]
    | some u =>
      cases hc : h.compare password u.password with
      | false => simp [loginPost, hval, hfind, hc]
      | true =>
        refine iff_of_true ?_ ⟨u, rfl, hc⟩
        simp [loginPost, hval, hfind, hc]
  · intro a hfind hc
    simp [loginPost, hval, hfind, hc]
  · intro a orig hfind hpw hne
    have hc : h.compare password a.password = false := by
      rw [hpw]
      cases hcc : h.compare password (h.hash orig) with
      | false => rfl
      | true => exact absurd ((hsound password orig).mp hcc) hne
    simp [loginPost, hval, hfind, hc]

/-- Claim C1 witness: Alice logs in with her own password against the store
holding her account and the session is authenticated with her data. -/
theorem login_spec_witness :
    idHasher.Sound ∧
    loginValid "a@x.com" "secret1" = true ∧
    ((loginPost idHasher [aliceAcct] freshSession "a@x.com" "secret1").1
        = Response.redirect "/" ↔
      ∃ a : Account, findOne [aliceAcct] "a@x.com" = some a ∧
        idHasher.compare "secret1" a.password = true) ∧
    (loginPost idHasher [aliceAcct] freshSession "a@x.com" "secret1").2
        = ⟨true, "Alice", "a@x.com", "user"⟩ := by
  have h := login_spec idHasher [aliceAcct] freshSession "a@x.com" "secret1"
    idHasher_sound (by decide)
  exact ⟨idHasher_sound, by decide, h.1, h.2.1 aliceAcct (by decide) (by decide)⟩

/-- Claim C2: a signup with valid input (non-empty name of at most 30
characters, valid email, password of at least 6 characters) and a fresh
email succeeds: it redirects to `/members`, appends exactly one new account
with role user and the hashed password, and authenticates the session with
the new account's name, email and user role. -/
theorem signup_fresh_success (h : Hasher) (db : UserCollection)
    (sess : Session) (name email password : String)
    (hname : name ≠ "") (hlen : name.length ≤ 30)
    (hemail : emailValid email = true) (hpw : 6 ≤ password.length)
    (hfresh : findOne db email = none) :
    (signupPost h db sess name email password).1
        = Response.redirect "/members" ∧
    (signupPost h db sess name email password).2.1
        = db ++ [⟨name, email, h.hash password, "user"⟩] ∧
    (signupPost h db sess name email password).2.2
        = ⟨true, name, email, "user"⟩ := by
  have hv : signupValid name email password = true := by
    simp [signupValid, hname, hlen, hemail, hpw]
  simp [signupPost, hv, hfresh]

/-- Claim C2 witness: Alice signs up on an empty store. -/
theorem signup_fresh_success_witness :
    (signupPost idHasher [] freshSession "Alice" "a@x.com" "secret1").1
        = Response.redirect "/members" ∧
    (signupPost idHasher [] freshSession "Alice" "a@x.com" "secret1").2.1
        = [⟨"Alice", "a@x.com", idHasher.hash "secret1", "user"⟩] ∧
    (signupPost idHasher [] freshSession "Alice" "a@x.com" "secret1").2.2
        = ⟨true, "Alice", "a@x.com", "user"⟩ := by
  have h := signup_fresh_success idHasher [] freshSession
    "Alice" "a@x.com" "secret1" (by decide) (by decide) (by decide)
    (by decide) rfl
  simpa using h

/-- Claim C3 counterexample: a signup attempt whose email is already taken
but whose input fails validation (a password shorter than 6 characters) is
answered with the validation error, not with the email-taken outcome. -/
theorem signup_taken_counterexample :
    (findOne [aliceAcct] "a@x.com").isSome = true ∧
    (signupPost idHasher [aliceAcct] freshSession "Bob" "a@x.com" "abc").1
        = Response.signupValidationError ∧
    (signupPost idHasher [aliceAcct] freshSession "Bob" "a@x.com" "abc").1
        ≠ Response.signupForm true := by
  decide

/-- Claim C3 (amended): every signup attempt whose email is already in the
store leaves the collection and the session untouched — the existing
account is never overwritten — and, when the input also passes validation,
is answered with the distinct email-taken signup form; an attempt failing
validation is answered with the validation error before the email check. -/
theorem signup_taken (h : Hasher) (db : UserCollection) (sess : Session)
    (name email password : String) (a : Account)
    (htaken : findOne db email = some a) :
    (signupPost h db sess name email password).2.1 = db ∧
    (signupPost h db sess name email password).2.2 = sess ∧
    (signupValid name email password = true →
      (signupPost h db sess name email password).1
        = Response.signupForm true) := by
  cases hv : signupValid name email password with
  | false => simp [signupPost, hv]
  | true => simp [signupPost, hv, htaken]

/-- Claim C3 witness: Bob signs up with valid input on Alice's taken email;
the store is unchanged and the email-taken form renders. -/
theorem signup_taken_witness :
    (signupPost idHasher [aliceAcct] freshSession "Bob" "a@x.com" "secret2").2.1
        = [aliceAcct] ∧
    (signupPost idHasher [aliceAcct] freshSession "Bob" "a@x.com" "secret2").1
        = Response.signupForm true := by
  have h := signup_taken idHasher [aliceAcct] freshSession
    "Bob" "a@x.com" "secret2" aliceAcct (by decide)
  exact ⟨h.1, h.2.2 (by decide)⟩

/-- Claim C7 counterexample: on a target account whose original role is
admin, promote followed by demote (by an acting admin session) leaves the
target with role user — the original admin role is not restored and the
store differs from the original. -/
theorem promote_demote_roundtrip_counterexample :
    findOne c7Db "r@x.com" = some ⟨"Root", "r@x.com", "hash1", "admin"⟩ ∧
    findOne (demoteGet (promoteGet c7Db bossSession "r@x.com").2.1
        (promoteGet c7Db bossSession "r@x.com").2.2 "r@x.com").2.1 "r@x.com"
      = some ⟨"Root", "r@x.com", "hash1", "user"⟩ ∧
    (demoteGet (promoteGet c7Db bossSession "r@x.com").2.1
        (promoteGet c7Db bossSession "r@x.com").2.2 "r@x.com").2.1 ≠ c7Db := by
  decide

/-- Claim C7 (amended): for an acting admin session, promote followed by
demote on the same target email always leaves the store as a single demote
would — the target's role ends up user — so the round trip restores the
target account's original role exactly when that original role was user,
and is a no-op when no account matches the email; when the original role
was admin the pair demotes the target instead of restoring it. -/
theorem promote_then_demote (db : UserCollection) (sess : Session)
    (email : String) (ha : sess.authenticated = true)
    (hr : sess.user_type = "admin") :
    (demoteGet (promoteGet db sess email).2.1
        (promoteGet db sess email).2.2 email).2.1
      = updateOneSetRole db email "user" ∧
    (∀ a : Account, findOne db email = some a → a.user_type = "user" →
      (demoteGet (promoteGet db sess email).2.1
          (promoteGet db sess email).2.2 email).2.1 = db) ∧
    (findOne db email = none →
      (demoteGet (promoteGet db sess email).2.1
          (promoteGet db sess email).2.2 email).2.1 = db) := by
  rw [promoteGet_allow db sess email ha hr]
  have ha2 : (if sess.email == email then { sess with user_type := "admin" }
      else sess).authenticated = true := by
    split <;> simp [ha]
  have hr2 : (if sess.email == email then { sess with user_type := "admin" }
      else sess).user_type = "admin" := by
    split <;> simp [hr]
  rw [demoteGet_allow _ _ email ha2 hr2]
  refine ⟨updateOne_twice db email "admin" "user", ?_, ?_⟩
  · intro a hfind hrole
    rw [updateOne_twice db email "admin" "user"]
    exact updateOne_of_find db email "user" a hfind hrole
  · intro hfind
    rw [updateOne_twice db email "admin" "user"]
    exact updateOne_of_none db email "user" hfind

/-- Claim C7 witness: the Boss admin promotes then demotes Carol, whose
original role is user; the store is restored exactly. -/
theorem promote_then_demote_witness :
    (demoteGet (promoteGet carolDb bossSession "c@x.com").2.1
        (promoteGet carolDb bossSession "c@x.com").2.2 "c@x.com").2.1
      = carolDb := by
  have h := promote_then_demote carolDb bossSession "c@x.com" rfl rfl
  exact h.2.1 ⟨"Carol", "c@x.com", "hash2", "user"⟩ (by decide) rfl

end Auth
